import Mathlib

set_option maxRecDepth 100000

/-!
Shallow embedding of `src/agent.py` (the Pandora catalog search adapter).

Python strings are modelled as `List Char`; the single outbound HTTP call is
modelled by an explicit `HttpOutcome` parameter describing what the network
did; the returned Python dict is modelled as a `Json` value.
-/

/-- Python strings are modelled as lists of characters. -/
abbrev Str := List Char

/-- Turn a Lean string literal into the `List Char` model. -/
def lit (s : String) : Str := s.data

/-- Model of Python `str.upper()` (character-wise, ASCII range). -/
def upper (s : Str) : Str := s.map Char.toUpper

/-- Model of Python `dict.get` on a string-keyed dict held as an assoc list. -/
def dictGet (k : Str) : List (Str × Str) → Option Str
  | [] => none
  | (k', v) :: rest => if k = k' then some v else dictGet k rest

/-- `CONTENT_TYPE_MAP` from `agent.py` lines 17-23. -/
def CONTENT_TYPE_MAP : List (Str × Str) :=
  [ (lit "ARTIST", lit "AR"),
    (lit "STATION", lit "SF"),
    (lit "ALBUM", lit "AL"),
    (lit "TRACK", lit "TR"),
    (lit "PODCAST", lit "PC") ]

/-- JSON values: models both the outgoing payload dict and the decoded
response body. Object fields keep insertion order, like Python dicts. -/
inductive Json where
  | null : Json
  | bool (b : Bool) : Json
  | num (n : Int) : Json
  | str (s : Str) : Json
  | arr (items : List Json) : Json
  | obj (fields : List (Str × Json)) : Json

/-- Lookup of a key in an ordered field list (first match wins). -/
def fieldsGet (k : Str) : List (Str × Json) → Option Json
  | [] => none
  | (k', v) :: rest => if k = k' then some v else fieldsGet k rest

/-- Lookup of a key in a JSON object; `none` on non-objects. -/
def jsonGet (k : Str) (j : Json) : Option Json :=
  match j with
  | Json.obj fields => fieldsGet k fields
  | _ => none

/-- The ordered key list of a JSON object (empty for non-objects). -/
def jsonKeys : Json → List Str
  | Json.obj fields => fields.map Prod.fst
  | _ => []

/-- Characters stripped by Python `str.strip()` (ASCII whitespace). -/
def pyWs (c : Char) : Bool :=
  c = ' ' || c = '\t' || c = '\n' || c = '\r' || c = '\x0b' || c = '\x0c'

/-- Model of Python `str.lstrip()`. -/
def lstrip (s : Str) : Str := s.dropWhile pyWs

/-- Model of Python `str.rstrip()`. -/
def rstrip (s : Str) : Str := (s.reverse.dropWhile pyWs).reverse

/-- Model of Python `str.strip()`. -/
def pyStrip (s : Str) : Str := rstrip (lstrip s)

/-- Model of Python `s.replace('\n', ' ')` (the pattern is one character, so
replacement is character-wise). -/
def replaceNl (s : Str) : Str := s.map (fun c => if c = '\n' then ' ' else c)

/-- The constant part of the f-string template before the first insertion
point (`agent.py` lines 49-51, braces written as hex escapes). -/
def gqlPre : Str := lit "\n        \x7b\n            search(types: ["

/-- The constant part of the template between the type-code insertion point
and the query insertion point. -/
def gqlMid : Str := lit "], query: \x22"

/-- The constant part of the template after the query insertion point
(`agent.py` lines 51-96). -/
def gqlSuf : Str := lit (
  "\x22, pagination: \x7blimit: 20\x7d) \x7b\n"
  ++ "                items \x7b\n"
  ++ "                    id\n"
  ++ "                    ... on Station \x7b\n"
  ++ "                        name\n"
  ++ "                        art \x7b\n"
  ++ "                            url(size: WIDTH_90)\n"
  ++ "                        \x7d\n"
  ++ "                        description\n"
  ++ "                    \x7d\n"
  ++ "                    ... on StationFactory \x7b\n"
  ++ "                        name\n"
  ++ "                        art \x7b\n"
  ++ "                            url(size: WIDTH_90)\n"
  ++ "                        \x7d\n"
  ++ "                        exampleArtists \x7b name \x7d\n"
  ++ "                        description\n"
  ++ "                    \x7d\n"
  ++ "                    ... on Track \x7b\n"
  ++ "                        name\n"
  ++ "                        artist \x7b name \x7d\n"
  ++ "                        album \x7b name \x7d\n"
  ++ "                        url\n"
  ++ "                    \x7d\n"
  ++ "                    ... on Podcast \x7b\n"
  ++ "                        name\n"
  ++ "                        publisherName\n"
  ++ "                        url\n"
  ++ "                    \x7d\n"
  ++ "                    ... on Album \x7b\n"
  ++ "                        name\n"
  ++ "                        artist \x7b name \x7d\n"
  ++ "                        releaseDate\n"
  ++ "                        tracks \x7b name \x7d\n"
  ++ "                        trackCount\n"
  ++ "                        url\n"
  ++ "                    \x7d\n"
  ++ "                    ... on Artist \x7b\n"
  ++ "                        name\n"
  ++ "                        sortableName\n"
  ++ "                        url\n"
  ++ "                    \x7d\n"
  ++ "                \x7d\n"
  ++ "            \x7d\n"
  ++ "        \x7d\n"
  ++ "    ")

/-- The f-string `graphql_query` of `agent.py` lines 49-96: the constant
template with the two insertion points (type code, raw query text). -/
def graphql_query (pandora_type_id query : Str) : Str :=
  gqlPre ++ (pandora_type_id ++ (gqlMid ++ (query ++ gqlSuf)))

/-- `get_pandora_access_token` from `agent.py` lines 6-9 (constant). -/
def get_pandora_access_token : Str := lit "<replace with test token>"

/-- `PANDORA_URL` from `agent.py` line 110. -/
def PANDORA_URL : Str := lit "https://ce.pandora.com/api/v1/graphql/graphql"

/-- The `headers` dict of `agent.py` lines 105-108. -/
def theHeaders : List (Str × Str) :=
  [ (lit "Authorization", lit "Bearer " ++ get_pandora_access_token),
    (lit "Content-Type", lit "application/json") ]

/-- The `data` payload dict of `agent.py` lines 99-103: the outgoing
envelope. -/
def payloadData (pandora_type_id query : Str) : Json :=
  Json.obj
    [ (lit "operationName", Json.null),
      (lit "variables", Json.obj []),
      (lit "query", Json.str (pyStrip (replaceNl (graphql_query pandora_type_id query)))) ]

/-- The observable shape of the single `httpx.post` request
(`agent.py` line 113). -/
structure Request where
  url : Str
  headers : List (Str × Str)
  body : Json
  timeoutSeconds : Nat

/-- The outgoing request built in the valid-content-type branch. -/
def theRequest (pandora_type_id query : Str) : Request :=
  ⟨PANDORA_URL, theHeaders, payloadData pandora_type_id query, 10⟩

/-- The modelled outcomes of the `httpx.post` call plus response handling:
success (2xx, body decodes as JSON); a received response whose status makes
`raise_for_status` raise; a received 2xx response whose body makes
`response.json()` raise; or an exception from `httpx.post` itself (timeout,
connection failure) with no response received. -/
inductive HttpOutcome where
  | success (body : Json) : HttpOutcome
  | httpStatusError (bodyText cause : Str) : HttpOutcome
  | decodeError (bodyText cause : Str) : HttpOutcome
  | noResponse (cause : Str) : HttpOutcome

/-- What one invocation of the adapter produced: the returned dict and the
outgoing network request, if any was issued. -/
structure CallResult where
  result : Json
  request : Option Request

/-- The early-return error dict of `agent.py` line 46. -/
def invalidResult (content_type : Str) : Json :=
  Json.obj [(lit "error", Json.str (lit "Invalid content_type: " ++ content_type ++ lit "."))]

/-- The except-branch error dict of `agent.py` line 118. -/
def apiFailResult (cause : Str) (response_text : Json) : Json :=
  Json.obj
    [ (lit "error", Json.str (lit "Pandora API call failed: " ++ cause)),
      (lit "response_text", response_text) ]

/-- `CONTENT_TYPE_MAP.get(content_type.upper())` of `agent.py` line 43. -/
def pandora_type_id (content_type : Str) : Option Str :=
  dictGet (upper content_type) CONTENT_TYPE_MAP

/-- Shallow embedding of `pandora_search_catalog` (`agent.py` lines 25-118).
The Python `if not pandora_type_id` test is truthiness: it takes the error
branch for `None` and for an empty string. -/
def pandora_search_catalog (query content_type : Str) (outcome : HttpOutcome) : CallResult :=
  match pandora_type_id content_type with
  | none => ⟨invalidResult content_type, none⟩
  | some tid =>
    if tid.isEmpty then ⟨invalidResult content_type, none⟩
    else
      match outcome with
      | HttpOutcome.success body => ⟨body, some (theRequest tid query)⟩
      | HttpOutcome.httpStatusError bodyText cause =>
          ⟨apiFailResult cause (Json.str bodyText), some (theRequest tid query)⟩
      | HttpOutcome.decodeError bodyText cause =>
          ⟨apiFailResult cause (Json.str bodyText), some (theRequest tid query)⟩
      | HttpOutcome.noResponse cause =>
          ⟨apiFailResult cause Json.null, some (theRequest tid query)⟩

/-- Number of network calls an invocation performed (0 or 1). -/
def netCalls (r : CallResult) : Nat :=
  match r.request with
  | none => 0
  | some _ => 1

/-- The flattened query document carried in the envelope of the outgoing
request, if a request was issued. -/
def requestQueryDoc (r : CallResult) : Option Str :=
  r.request.bind (fun req =>
    match jsonGet (lit "query") req.body with
    | some (Json.str d) => some d
    | _ => none)

/-- Drop everything up to and including the first double quote. -/
def dropAfterFirstQuote : Str → Option Str
  | [] => none
  | c :: rest => if c = '\x22' then some rest else dropAfterFirstQuote rest

/-- Take characters up to the next double quote; `none` if there is none. -/
def takeUntilQuote : Str → Option Str
  | [] => none
  | c :: rest => if c = '\x22' then some [] else (takeUntilQuote rest).map (fun t => c :: t)

/-- The query argument as the remote parser sees it: the text between the
first and second double quote of the document. In the template the first
double quote is the one opening the query argument. -/
def extractQueryArg (doc : Str) : Option Str :=
  (dropAfterFirstQuote doc).bind takeUntilQuote

/-! Helper lemmas about the adapter's branches. -/

/-- Every provider code the map can return is nonempty and quote-free. -/
theorem content_code_props (ct tid : Str) (h : pandora_type_id ct = some tid) :
    tid.isEmpty = false ∧ '\x22' ∉ tid := by
  unfold pandora_type_id CONTENT_TYPE_MAP at h
  simp only [dictGet] at h
  split_ifs at h <;> simp_all <;> subst h <;> decide

/-- On an invalid content type the function returns the error dict and makes
no request. -/
theorem search_invalid (q ct : Str) (oc : HttpOutcome) (h : pandora_type_id ct = none) :
    pandora_search_catalog q ct oc = ⟨invalidResult ct, none⟩ := by
  unfold pandora_search_catalog
  rw [h]

/-- Valid content type, successful call: the decoded body is returned and the
request is the constructed one. -/
theorem search_valid_success (q ct tid : Str) (body : Json) (h : pandora_type_id ct = some tid) :
    pandora_search_catalog q ct (HttpOutcome.success body) = ⟨body, some (theRequest tid q)⟩ := by
  have hne := (content_code_props ct tid h).1
  unfold pandora_search_catalog
  rw [h]
  simp [hne]

/-- Valid content type, non-2xx response. -/
theorem search_valid_statusError (q ct tid bodyText cause : Str) (h : pandora_type_id ct = some tid) :
    pandora_search_catalog q ct (HttpOutcome.httpStatusError bodyText cause)
      = ⟨apiFailResult cause (Json.str bodyText), some (theRequest tid q)⟩ := by
  have hne := (content_code_props ct tid h).1
  unfold pandora_search_catalog
  rw [h]
  simp [hne]

/-- Valid content type, 2xx response whose body fails to decode. -/
theorem search_valid_decodeError (q ct tid bodyText cause : Str) (h : pandora_type_id ct = some tid) :
    pandora_search_catalog q ct (HttpOutcome.decodeError bodyText cause)
      = ⟨apiFailResult cause (Json.str bodyText), some (theRequest tid q)⟩ := by
  have hne := (content_code_props ct tid h).1
  unfold pandora_search_catalog
  rw [h]
  simp [hne]

/-- Valid content type, no response received (timeout or connection
failure). -/
theorem search_valid_noResponse (q ct tid cause : Str) (h : pandora_type_id ct = some tid) :
    pandora_search_catalog q ct (HttpOutcome.noResponse cause)
      = ⟨apiFailResult cause Json.null, some (theRequest tid q)⟩ := by
  have hne := (content_code_props ct tid h).1
  unfold pandora_search_catalog
  rw [h]
  simp [hne]

/-- A valid content type always issues exactly one call. -/
theorem netCalls_valid (q ct tid : Str) (oc : HttpOutcome) (h : pandora_type_id ct = some tid) :
    netCalls (pandora_search_catalog q ct oc) = 1 := by
  cases oc with
  | success body => rw [search_valid_success q ct tid body h]; rfl
  | httpStatusError bt c => rw [search_valid_statusError q ct tid bt c h]; rfl
  | decodeError bt c => rw [search_valid_decodeError q ct tid bt c h]; rfl
  | noResponse c => rw [search_valid_noResponse q ct tid c h]; rfl

/-- An invalid content type never issues a call. -/
theorem netCalls_invalid (q ct : Str) (oc : HttpOutcome) (h : pandora_type_id ct = none) :
    netCalls (pandora_search_catalog q ct oc) = 0 := by
  rw [search_invalid q ct oc h]; rfl

/-- A content type is valid exactly when its upper-casing is one of the five
labels of the map. -/
theorem valid_iff (ct : Str) :
    (∃ tid, pandora_type_id ct = some tid)
      ↔ upper ct ∈ [lit "ARTIST", lit "STATION", lit "ALBUM", lit "TRACK", lit "PODCAST"] := by
  unfold pandora_type_id CONTENT_TYPE_MAP
  simp only [dictGet, List.mem_cons]
  split_ifs <;> simp_all

/-! String-hygiene lemmas for the flattened document. -/

/-- The head of a `dropWhile` never satisfies the dropped predicate. -/
theorem head_dropWhile_false (p : Char → Bool) (l : Str) (c : Char)
    (h : (l.dropWhile p).head? = some c) : p c = false := by
  induction l with
  | nil => simp [List.dropWhile] at h
  | cons a t ih =>
    rw [List.dropWhile_cons] at h
    by_cases hp : p a
    · rw [if_pos hp] at h
      exact ih h
    · rw [if_neg hp] at h
      simp at h
      subst h
      simpa using hp

/-- Members of a `dropWhile` are members of the list. -/
theorem mem_dropWhile_mem (p : Char → Bool) (l : Str) (c : Char)
    (h : c ∈ l.dropWhile p) : c ∈ l := by
  induction l with
  | nil => simp [List.dropWhile] at h
  | cons a t ih =>
    rw [List.dropWhile_cons] at h
    by_cases hp : p a
    · rw [if_pos hp] at h
      exact List.mem_cons_of_mem a (ih h)
    · rw [if_neg hp] at h
      exact h

/-- Members of the stripped string are members of the original. -/
theorem mem_pyStrip_mem (s : Str) (c : Char) (h : c ∈ pyStrip s) : c ∈ s := by
  unfold pyStrip rstrip lstrip at h
  rw [List.mem_reverse] at h
  have h2 := mem_dropWhile_mem pyWs _ c h
  rw [List.mem_reverse] at h2
  exact mem_dropWhile_mem pyWs s c h2

/-- `rstrip` is a prefix: the original is `rstrip` plus a tail. -/
theorem rstrip_append (m : Str) :
    m = rstrip m ++ (List.takeWhile pyWs m.reverse).reverse := by
  have key : List.takeWhile pyWs m.reverse ++ List.dropWhile pyWs m.reverse = m.reverse :=
    List.takeWhile_append_dropWhile pyWs m.reverse
  calc m = m.reverse.reverse := (List.reverse_reverse m).symm
    _ = (List.takeWhile pyWs m.reverse ++ List.dropWhile pyWs m.reverse).reverse := by rw [key]
    _ = (List.dropWhile pyWs m.reverse).reverse ++ (List.takeWhile pyWs m.reverse).reverse := by
          rw [List.reverse_append]
    _ = rstrip m ++ (List.takeWhile pyWs m.reverse).reverse := rfl

/-- The head of `rstrip m` is the head of `m` when `rstrip m` is nonempty. -/
theorem head_rstrip (m : Str) (c : Char) (h : (rstrip m).head? = some c) :
    m.head? = some c := by
  rcases hr : rstrip m with _ | ⟨a, x⟩
  · rw [hr] at h
    simp at h
  · rw [hr] at h
    simp at h
    have hm := rstrip_append m
    rw [hr] at hm
    rw [hm, h]
    rfl

/-- The first character of a stripped string is never whitespace. -/
theorem head_pyStrip_not_ws (s : Str) (c : Char) (h : (pyStrip s).head? = some c) :
    pyWs c = false := by
  unfold pyStrip at h
  have h2 := head_rstrip (lstrip s) c h
  exact head_dropWhile_false pyWs s c h2

/-- The last character of a stripped string is never whitespace. -/
theorem getLast_pyStrip_not_ws (s : Str) (c : Char) (h : (pyStrip s).getLast? = some c) :
    pyWs c = false := by
  unfold pyStrip rstrip at h
  rw [List.getLast?_reverse] at h
  exact head_dropWhile_false pyWs (lstrip s).reverse c h

/-- The flattening map never produces a newline. -/
theorem no_newline_replaceNl (s : Str) : '\n' ∉ replaceNl s := by
  intro h
  unfold replaceNl at h
  rw [List.mem_map] at h
  rcases h with ⟨a, _, ha⟩
  by_cases hn : a = '\n'
  · rw [if_pos hn] at ha
    exact absurd ha (by decide)
  · rw [if_neg hn] at ha
    exact hn ha

/-! Extraction lemmas for the query argument of the document. -/

/-- Scanning for the first quote skips over a quote-free chunk. -/
theorem dropQuote_append (l r : Str) (h : '\x22' ∉ l) :
    dropAfterFirstQuote (l ++ r) = dropAfterFirstQuote r := by
  induction l with
  | nil => rfl
  | cons a t ih =>
    have ha : ¬ a = '\x22' := fun e => h (by rw [e]; exact List.mem_cons_self _ _)
    rw [List.cons_append]
    simp only [dropAfterFirstQuote]
    rw [if_neg ha]
    exact ih (fun hm => h (List.mem_cons_of_mem a hm))

/-- Taking until the next quote recovers a quote-free chunk verbatim. -/
theorem takeUntil_append (q r : Str) (hq : '\x22' ∉ q) (hr : r.head? = some '\x22') :
    takeUntilQuote (q ++ r) = some q := by
  induction q with
  | nil =>
    rcases r with _ | ⟨b, rs⟩
    · simp at hr
    · simp at hr
      rw [List.nil_append]
      simp only [takeUntilQuote]
      rw [if_pos hr]
  | cons a t ih =>
    have ha : ¬ a = '\x22' := fun e => hq (by rw [e]; exact List.mem_cons_self _ _)
    rw [List.cons_append]
    simp only [takeUntilQuote]
    rw [if_neg ha, ih (fun hm => hq (List.mem_cons_of_mem a hm))]
    rfl

/-! Claim theorems. -/

/-- C1: for every input pair whose upper-cased content type is not a key of
the map, the function returns exactly the dict with the single field
`error = "Invalid content_type: <original input>."` (original, non-uppercased
input interpolated) and performs zero network calls. -/
theorem invalid_content_type_result (q ct : Str) (oc : HttpOutcome)
    (h : pandora_type_id ct = none) :
    (pandora_search_catalog q ct oc).result
        = Json.obj [(lit "error", Json.str (lit "Invalid content_type: " ++ ct ++ lit "."))]
      ∧ netCalls (pandora_search_catalog q ct oc) = 0 := by
  rw [search_invalid q ct oc h]
  exact ⟨rfl, rfl⟩

/-- Witness for C1 at content type "PLAYLIST". -/
theorem invalid_content_type_result_witness :
    (pandora_search_catalog (lit "jazz") (lit "PLAYLIST") (HttpOutcome.noResponse [])).result
        = Json.obj [(lit "error", Json.str (lit "Invalid content_type: " ++ lit "PLAYLIST" ++ lit "."))]
      ∧ netCalls (pandora_search_catalog (lit "jazz") (lit "PLAYLIST") (HttpOutcome.noResponse [])) = 0 :=
  invalid_content_type_result (lit "jazz") (lit "PLAYLIST") (HttpOutcome.noResponse []) (by decide)

/-- C2: a network call is issued exactly when the upper-cased content type is
one of the five labels, and each label resolves to its documented provider
code. -/
theorem valid_content_type_resolves (q ct : Str) (oc : HttpOutcome) :
    (netCalls (pandora_search_catalog q ct oc) = 1
        ↔ upper ct ∈ [lit "ARTIST", lit "STATION", lit "ALBUM", lit "TRACK", lit "PODCAST"])
      ∧ (upper ct = lit "ARTIST" → pandora_type_id ct = some (lit "AR"))
      ∧ (upper ct = lit "STATION" → pandora_type_id ct = some (lit "SF"))
      ∧ (upper ct = lit "ALBUM" → pandora_type_id ct = some (lit "AL"))
      ∧ (upper ct = lit "TRACK" → pandora_type_id ct = some (lit "TR"))
      ∧ (upper ct = lit "PODCAST" → pandora_type_id ct = some (lit "PC")) := by
  refine ⟨⟨?_, ?_⟩, ?_, ?_, ?_, ?_, ?_⟩
  · intro hn
    rcases hcd : pandora_type_id ct with _ | tid
    · rw [netCalls_invalid q ct oc hcd] at hn
      exact absurd hn (by decide)
    · exact (valid_iff ct).1 ⟨tid, hcd⟩
  · intro hmem
    rcases (valid_iff ct).2 hmem with ⟨tid, htid⟩
    exact netCalls_valid q ct tid oc htid
  · intro hu
    unfold pandora_type_id
    rw [hu]
    rfl
  · intro hu
    unfold pandora_type_id
    rw [hu]
    rfl
  · intro hu
    unfold pandora_type_id
    rw [hu]
    rfl
  · intro hu
    unfold pandora_type_id
    rw [hu]
    rfl
  · intro hu
    unfold pandora_type_id
    rw [hu]
    rfl

/-- Witness for C2 at content type "artist". -/
theorem valid_content_type_resolves_witness :
    netCalls (pandora_search_catalog (lit "jazz") (lit "artist") (HttpOutcome.noResponse [])) = 1
      ∧ pandora_type_id (lit "artist") = some (lit "AR") :=
  ⟨(valid_content_type_resolves (lit "jazz") (lit "artist") (HttpOutcome.noResponse [])).1.2
      (by decide),
   (valid_content_type_resolves (lit "jazz") (lit "artist") (HttpOutcome.noResponse [])).2.1
      (by decide)⟩

/-- C3: with a valid content type, every failing call outcome yields an
`error` field "Pandora API call failed: <cause>"; the `response_text` field
is the raw body text when a response was received and null when none was. -/
theorem api_failure_result (q ct tid : Str) (h : pandora_type_id ct = some tid) :
    (∀ bodyText cause,
        (pandora_search_catalog q ct (HttpOutcome.httpStatusError bodyText cause)).result
          = Json.obj [ (lit "error", Json.str (lit "Pandora API call failed: " ++ cause)),
                       (lit "response_text", Json.str bodyText) ])
      ∧ (∀ bodyText cause,
          (pandora_search_catalog q ct (HttpOutcome.decodeError bodyText cause)).result
            = Json.obj [ (lit "error", Json.str (lit "Pandora API call failed: " ++ cause)),
                         (lit "response_text", Json.str bodyText) ])
      ∧ (∀ cause,
          (pandora_search_catalog q ct (HttpOutcome.noResponse cause)).result
            = Json.obj [ (lit "error", Json.str (lit "Pandora API call failed: " ++ cause)),
                         (lit "response_text", Json.null) ]) := by
  refine ⟨fun bt c => ?_, fun bt c => ?_, fun c => ?_⟩
  · rw [search_valid_statusError q ct tid bt c h]
    rfl
  · rw [search_valid_decodeError q ct tid bt c h]
    rfl
  · rw [search_valid_noResponse q ct tid c h]
    rfl

/-- Witness for C3: HTTP 500 with body and a timeout with no response. -/
theorem api_failure_result_witness :
    (pandora_search_catalog (lit "jazz") (lit "ARTIST")
        (HttpOutcome.httpStatusError (lit "\x7b\x22message\x22:\x22server error\x22\x7d") (lit "boom"))).result
        = Json.obj [ (lit "error", Json.str (lit "Pandora API call failed: " ++ lit "boom")),
                     (lit "response_text", Json.str (lit "\x7b\x22message\x22:\x22server error\x22\x7d")) ]
      ∧ (pandora_search_catalog (lit "jazz") (lit "ARTIST")
          (HttpOutcome.noResponse (lit "timed out"))).result
          = Json.obj [ (lit "error", Json.str (lit "Pandora API call failed: " ++ lit "timed out")),
                       (lit "response_text", Json.null) ] :=
  ⟨(api_failure_result (lit "jazz") (lit "ARTIST") (lit "AR") (by decide)).1
      (lit "\x7b\x22message\x22:\x22server error\x22\x7d") (lit "boom"),
   (api_failure_result (lit "jazz") (lit "ARTIST") (lit "AR") (by decide)).2.2
      (lit "timed out")⟩

/-- C5: with a valid content type and a 2xx response whose body decodes, the
decoded body is returned unchanged. -/
theorem success_returns_body (q ct tid : Str) (body : Json)
    (h : pandora_type_id ct = some tid) :
    (pandora_search_catalog q ct (HttpOutcome.success body)).result = body := by
  rw [search_valid_success q ct tid body h]

/-- The decoded response body of the spec's success example. -/
def exampleBody : Json :=
  Json.obj
    [ (lit "data", Json.obj
        [ (lit "search", Json.obj
            [ (lit "items", Json.arr
                [ Json.obj [ (lit "id", Json.str (lit "1")),
                             (lit "name", Json.str (lit "Test Artist")) ] ]) ]) ]) ]

/-- Witness for C5 at the spec's example body. -/
theorem success_returns_body_witness :
    (pandora_search_catalog (lit "Test") (lit "ARTIST") (HttpOutcome.success exampleBody)).result
      = exampleBody :=
  success_returns_body (lit "Test") (lit "ARTIST") (lit "AR") exampleBody (by decide)

/-- C4 counterexample: a query containing a double quote alters the document
structure. With the query `a" b` the query argument the document carries is
just `a`, not the original text: the claim fails at this input. -/
theorem query_injection_counterexample :
    ¬ extractQueryArg (graphql_query (lit "AR") (lit "a\x22 b")) = some (lit "a\x22 b") := by
  decide

/-- C4 amended: for a quote-free provider code (all five codes are) and a
query containing no double-quote character, the embedding is safe: the query
argument parsed back from the document is exactly the raw query text. Queries
containing a double quote can alter the document structure, as the raw text
is embedded with no escaping. -/
theorem query_embedding_quote_free (tid q : Str) (htid : '\x22' ∉ tid) (hq : '\x22' ∉ q) :
    extractQueryArg (graphql_query tid q) = some q := by
  unfold extractQueryArg graphql_query
  rw [dropQuote_append gqlPre _ (by decide), dropQuote_append tid _ htid]
  have hmid : dropAfterFirstQuote (gqlMid ++ (q ++ gqlSuf)) = some (q ++ gqlSuf) := rfl
  rw [hmid]
  exact takeUntil_append q gqlSuf hq rfl

/-- Witness for the amended C4. -/
theorem query_embedding_quote_free_witness :
    extractQueryArg (graphql_query (lit "SF") (lit "new alternative rock")) = some (lit "new alternative rock") :=
  query_embedding_quote_free (lit "SF") (lit "new alternative rock") (by decide) (by decide)

/-- C6: whenever a request is issued, the flattened query document placed in
its envelope contains no newline character, and neither its first nor its
last character is whitespace. -/
theorem flattened_doc_clean (q ct : Str) (oc : HttpOutcome) (doc : Str)
    (h : requestQueryDoc (pandora_search_catalog q ct oc) = some doc) :
    '\n' ∉ doc
      ∧ (∀ c, doc.head? = some c → pyWs c = false)
      ∧ (∀ c, doc.getLast? = some c → pyWs c = false) := by
  rcases hcd : pandora_type_id ct with _ | tid
  · rw [search_invalid q ct oc hcd] at h
    exact absurd h (by simp [requestQueryDoc])
  · have hreq : requestQueryDoc (pandora_search_catalog q ct oc)
        = some (pyStrip (replaceNl (graphql_query tid q))) := by
      cases oc with
      | success body => rw [search_valid_success q ct tid body hcd]; rfl
      | httpStatusError bt c => rw [search_valid_statusError q ct tid bt c hcd]; rfl
      | decodeError bt c => rw [search_valid_decodeError q ct tid bt c hcd]; rfl
      | noResponse c => rw [search_valid_noResponse q ct tid c hcd]; rfl
    rw [hreq] at h
    have hdoc : doc = pyStrip (replaceNl (graphql_query tid q)) := by
      injection h with h2
      exact h2.symm
    subst hdoc
    refine ⟨?_, ?_, ?_⟩
    · intro hmem
      exact no_newline_replaceNl (graphql_query tid q) (mem_pyStrip_mem _ '\n' hmem)
    · exact fun c hc => head_pyStrip_not_ws _ c hc
    · exact fun c hc => getLast_pyStrip_not_ws _ c hc

/-- Witness for C6 (the "TRACK" document for query "hi"). -/
theorem flattened_doc_clean_witness :
    '\n' ∉ pyStrip (replaceNl (graphql_query (lit "TR") (lit "hi"))) :=
  (flattened_doc_clean (lit "hi") (lit "TRACK") (HttpOutcome.noResponse [])
      (pyStrip (replaceNl (graphql_query (lit "TR") (lit "hi")))) rfl).1

/-- C7: whenever a request is issued, its body is the JSON object with
`operationName` null, `variables` an empty object, and `query` the flattened
query document string. -/
theorem envelope_shape (q ct : Str) (oc : HttpOutcome) (req : Request)
    (h : (pandora_search_catalog q ct oc).request = some req) :
    ∃ tid, pandora_type_id ct = some tid
      ∧ req.body = Json.obj
          [ (lit "operationName", Json.null),
            (lit "variables", Json.obj []),
            (lit "query", Json.str (pyStrip (replaceNl (graphql_query tid q)))) ] := by
  rcases hcd : pandora_type_id ct with _ | tid
  · rw [search_invalid q ct oc hcd] at h
    exact absurd h (by simp)
  · have hreq : (pandora_search_catalog q ct oc).request = some (theRequest tid q) := by
      cases oc with
      | success body => rw [search_valid_success q ct tid body hcd]
      | httpStatusError bt c => rw [search_valid_statusError q ct tid bt c hcd]
      | decodeError bt c => rw [search_valid_decodeError q ct tid bt c hcd]
      | noResponse c => rw [search_valid_noResponse q ct tid c hcd]
    rw [hreq] at h
    injection h with h2
    exact ⟨tid, rfl, by rw [← h2]; rfl⟩

/-- Witness for C7 at the "ARTIST" request. -/
theorem envelope_shape_witness :
    ∃ tid, pandora_type_id (lit "ARTIST") = some tid
      ∧ (theRequest (lit "AR") (lit "hi")).body = Json.obj
          [ (lit "operationName", Json.null),
            (lit "variables", Json.obj []),
            (lit "query", Json.str (pyStrip (replaceNl (graphql_query tid (lit "hi"))))) ] :=
  envelope_shape (lit "hi") (lit "ARTIST") (HttpOutcome.noResponse [])
    (theRequest (lit "AR") (lit "hi")) rfl

/-- C8: the query document is the constant template with exactly the two
insertion points (resolved type code, raw query text); in particular
"PODCAST" resolves to provider code PC, and for the call with query
"space podcasts" the document carries the literal text `space podcasts` as
its query argument. -/
theorem template_two_insertions :
    (∀ tid q, graphql_query tid q = gqlPre ++ (tid ++ (gqlMid ++ (q ++ gqlSuf))))
      ∧ pandora_type_id (lit "PODCAST") = some (lit "PC")
      ∧ extractQueryArg (graphql_query (lit "PC") (lit "space podcasts")) = some (lit "space podcasts") :=
  ⟨fun _ _ => rfl, by decide, by decide⟩

/-- C9: for every input pair and every modelled outcome of the token
provider and the HTTP call, the function returns a value that is either the
decoded response body (on success) or a dict carrying an `error` field: no
exception escapes. -/
theorem total_result_shape (q ct : Str) (oc : HttpOutcome) :
    (∃ body, oc = HttpOutcome.success body ∧ (pandora_search_catalog q ct oc).result = body)
      ∨ (∃ msg rest, (pandora_search_catalog q ct oc).result
          = Json.obj ((lit "error", Json.str msg) :: rest)) := by
  rcases hcd : pandora_type_id ct with _ | tid
  · right
    refine ⟨lit "Invalid content_type: " ++ ct ++ lit ".", [], ?_⟩
    rw [search_invalid q ct oc hcd]
    rfl
  · cases oc with
    | success body =>
      left
      exact ⟨body, rfl, by rw [search_valid_success q ct tid body hcd]⟩
    | httpStatusError bt c =>
      right
      refine ⟨lit "Pandora API call failed: " ++ c,
        [(lit "response_text", Json.str bt)], ?_⟩
      rw [search_valid_statusError q ct tid bt c hcd]
      rfl
    | decodeError bt c =>
      right
      refine ⟨lit "Pandora API call failed: " ++ c,
        [(lit "response_text", Json.str bt)], ?_⟩
      rw [search_valid_decodeError q ct tid bt c hcd]
      rfl
    | noResponse c =>
      right
      refine ⟨lit "Pandora API call failed: " ++ c,
        [(lit "response_text", Json.null)], ?_⟩
      rw [search_valid_noResponse q ct tid c hcd]
      rfl

/-- C10: the invalid-content-type dict has exactly the single key `error`,
while every API-call-failure dict has exactly the keys `error` and
`response_text` (in that order), so the two error shapes are distinguishable
by their keys. -/
theorem error_shapes_distinguishable (q ct : Str) :
    (∀ oc, pandora_type_id ct = none →
        jsonKeys (pandora_search_catalog q ct oc).result = [lit "error"])
      ∧ (∀ tid, pandora_type_id ct = some tid →
          (∀ bodyText cause,
              jsonKeys (pandora_search_catalog q ct (HttpOutcome.httpStatusError bodyText cause)).result
                = [lit "error", lit "response_text"])
            ∧ (∀ bodyText cause,
                jsonKeys (pandora_search_catalog q ct (HttpOutcome.decodeError bodyText cause)).result
                  = [lit "error", lit "response_text"])
            ∧ (∀ cause,
                jsonKeys (pandora_search_catalog q ct (HttpOutcome.noResponse cause)).result
                  = [lit "error", lit "response_text"])) := by
  constructor
  · intro oc hcd
    rw [search_invalid q ct oc hcd]
    rfl
  · intro tid hcd
    refine ⟨fun bt c => ?_, fun bt c => ?_, fun c => ?_⟩
    · rw [search_valid_statusError q ct tid bt c hcd]
      rfl
    · rw [search_valid_decodeError q ct tid bt c hcd]
      rfl
    · rw [search_valid_noResponse q ct tid c hcd]
      rfl

/-- Witness for C10: the two concrete key lists. -/
theorem error_shapes_distinguishable_witness :
    jsonKeys (pandora_search_catalog (lit "jazz") (lit "PLAYLIST") (HttpOutcome.noResponse [])).result
        = [lit "error"]
      ∧ jsonKeys (pandora_search_catalog (lit "jazz") (lit "TRACK")
          (HttpOutcome.noResponse (lit "timed out"))).result
          = [lit "error", lit "response_text"] :=
  ⟨(error_shapes_distinguishable (lit "jazz") (lit "PLAYLIST")).1
      (HttpOutcome.noResponse []) (by decide),
   ((error_shapes_distinguishable (lit "jazz") (lit "TRACK")).2 (lit "TR")
      (by decide)).2.2 (lit "timed out")⟩
